import Mathlib

/-!
Shallow embedding of `src/show-call.cpp`, a clang tool that reports, for each
call expression matched in a translation unit, the callee declaration the
compiler resolved the call to, and (with `--annotate`) rewrites the source,
splicing the callee information in as an inline comment.

External collaborators (the clang `SourceManager`, `Lexer`, `std::set`
underlying `tooling::Replacements`, and `llvm::cast`) are modelled by their
documented behaviour; the tool's own logic in `SCCallBack::run`,
`SCCallBack::dumpCallInfo` and `main` is translated line by line from the
source. Source text is a `List Char`; AST dumps (`--show-call-ast`,
`--show-callee-ast`) are output produced entirely by the external frontend
and are not part of the modelled report text.
-/

namespace ShowCall

/-- Dynamic class of a matched call-expression node, mirroring clang's
`CallExpr` class hierarchy: `CXXMemberCallExpr` and `CXXOperatorCallExpr` are
disjoint subclasses of `CallExpr`; further subclasses exist (for example
`UserDefinedLiteral`), represented here by `otherCall`. A member-syntax
invocation is a `CXXMemberCallExpr` node and an operator-syntax invocation of
an overloaded operator is a `CXXOperatorCallExpr` node. -/
inductive CallExprClass where
  | plainCall
  | cxxMemberCall
  | cxxOperatorCall
  | otherCall
deriving DecidableEq

/-- Model of `isa<CXXMemberCallExpr>(call)` (line 116). -/
def isaCXXMemberCallExpr : CallExprClass → Bool
  | .cxxMemberCall => true
  | _ => false

/-- Model of `isa<CXXOperatorCallExpr>(call)` (line 118). -/
def isaCXXOperatorCallExpr : CallExprClass → Bool
  | .cxxOperatorCall => true
  | _ => false

/-- The call-kind computation of `SCCallBack::run`, lines 114-119:
`callKind` starts as `"Function"`, becomes `"Member"` for a
`CXXMemberCallExpr` and `"Operator"` for a `CXXOperatorCallExpr`. -/
def classifyCall (c : CallExprClass) : String :=
  if isaCXXMemberCallExpr c then "Member"
  else if isaCXXOperatorCallExpr c then "Operator"
  else "Function"

/-- The data `dumpCallInfo` extracts from a `FunctionDecl`: qualified name
(`getQualifiedNameAsString`), printed type (`QualType::getAsString` of the
split declared type), `isDefaulted()`, and the declaration location resolved
by `getSourceInfo` to a file name and line number. -/
structure FunctionDeclInfo where
  qualifiedName : String
  typeString : String
  isDefaulted : Bool
  declFile : String
  declLine : Nat
deriving DecidableEq

/-- Result of `call->getCalleeDecl()`: the resolved callee declaration,
which clang only guarantees to be some `Decl`; `dumpCallInfo` immediately
casts it to `FunctionDecl`. Non-function possibilities are represented by
two sample declaration kinds. -/
inductive Decl where
  | functionDecl (info : FunctionDeclInfo)
  | varDecl (name : String)
  | recordDecl (name : String)
deriving DecidableEq

/-- Model of `isa<FunctionDecl>(d)`. -/
def isaFunctionDecl : Decl → Bool
  | .functionDecl _ => true
  | _ => false

/-- Model of `cast<FunctionDecl>(d)` (line 153): with assertions enabled,
`llvm::cast` aborts the process via
`assert(isa<X>(Val) && "cast<Ty>() argument of incompatible type!")` when the
dynamic type does not match; the assertion message is a fixed string literal
that does not mention the argument's actual declaration kind. -/
def castFunctionDecl : Decl → Except String FunctionDeclInfo
  | .functionDecl i => .ok i
  | _ => .error "cast<Ty>() argument of incompatible type!"

/-- The callee description string `s` built by `dumpCallInfo`, lines
155-168: for a non-defaulted callee,
`qualifiedName ++ " " ++ type ++ " @ " ++ declFile ++ ":" ++ declLine`;
for a defaulted callee, `"(defaulted) " ++ type`. -/
def calleeDescription (d : FunctionDeclInfo) : String :=
  if !d.isDefaulted then
    d.qualifiedName ++ " " ++ d.typeString ++ " @ " ++ d.declFile ++ ":"
      ++ toString d.declLine
  else
    "(defaulted) " ++ d.typeString

/-- Everything `dumpCallInfo` reads about the call expression itself:
the source text of the call's token range (line 143), the call-site file,
line and column resolved from `getLocStart()` (line 137), the file offset of
`getLocEnd()` (the start of the call's last token), the length of that last
token (the extent `CharSourceRange::getTokenRange(LocEnd, LocEnd)` covers),
and the resolved callee declaration. -/
structure CallInfo where
  srcText : String
  file : String
  line : Nat
  col : Nat
  endTokOff : Nat
  endTokLen : Nat
  calleeDecl : Decl
deriving DecidableEq

/-- One `clang::tooling::Replacement`: file path, offset and length of the
replaced range (in original-file coordinates) and the replacement text. -/
structure Replacement where
  filePath : String
  offset : Nat
  length : Nat
  text : String
deriving DecidableEq

/-- Byte-lexicographic string comparison, the order `StringRef`'s
`operator<` (a `memcmp`-based compare) induces on the string values. -/
def strLtB : List Char → List Char → Bool
  | [], [] => false
  | [], _ :: _ => true
  | _ :: _, [] => false
  | a :: as, b :: bs =>
    if a.toNat < b.toNat then true
    else if b.toNat < a.toNat then false
    else strLtB as bs

/-- The strict order on `Replacement` used by the `std::set` inside
`tooling::Replacements` (clang `Refactoring.cpp`): lexicographic on offset,
then length, then file path, then replacement text. -/
def replLess (a b : Replacement) : Bool :=
  if a.offset ≠ b.offset then decide (a.offset < b.offset)
  else if a.length ≠ b.length then decide (a.length < b.length)
  else if a.filePath ≠ b.filePath then strLtB a.filePath.data b.filePath.data
  else strLtB a.text.data b.text.data

/-- Model of `Replace.insert(r)` (line 180): `std::set::insert` into the
ordered set of replacements. An element comparing equal to an existing one
leaves the set unchanged (the insertion is silently a no-op); the function
is total and signals no error. -/
def replInsert (s : List Replacement) (r : Replacement) : List Replacement :=
  match s with
  | [] => [r]
  | x :: xs =>
    if replLess r x then r :: x :: xs
    else if replLess x r then x :: replInsert xs r
    else x :: xs

/-- The annotation string built by `dumpCallInfo`, lines 173-177:
the character at the file offset of `getLocEnd()` (the first character of the
call's last token, read through `getCharacterData`), then `" /* "`, the
callee description `s`, and `" */"`. -/
def annotTextFor (orig : List Char) (off : Nat) (desc : String) : String :=
  String.singleton (orig.getD off ' ') ++ " /* " ++ desc ++ " */"

/-- The `Replacement` queued by `dumpCallInfo`, lines 178-180: it covers the
token range `[getLocEnd(), getLocEnd()]`, i.e. starts at the end token's
offset and spans the end token's full length, and carries the annotation
text as replacement text. -/
def mkReplacement (orig : List Char) (ci : CallInfo) (desc : String) :
    Replacement :=
  ⟨ci.file, ci.endTokOff, ci.endTokLen, annotTextFor orig ci.endTokOff desc⟩

/-- Applying one `Replacement` to file content: the bytes
`[off, off + len)` are replaced by the replacement text. -/
def applyReplacement (content : List Char) (off len : Nat) (text : String) :
    List Char :=
  content.take off ++ text.data ++ content.drop (off + len)

/-- Applying a whole replacement set (clang `applyAllReplacements`): the
replacements, kept sorted ascending by offset in the set, are applied
starting from the highest offset so that original-file offsets stay valid. -/
def applyAllReplacements (orig : List Char) (rs : List Replacement) :
    List Char :=
  rs.foldr (fun r acc => applyReplacement acc r.offset r.length r.text) orig

/-- The report text `dumpCallInfo` writes to `errs()` for one matching call
(lines 142-147, 152, 170, 186): a `Call site:` line with the call's source
text and `file:line`, then a `Callee:` line with the callee description,
then a blank line. The `CallKind` parameter and the resolved column number
are passed in (mirroring the code) but do not appear in the output. -/
def reportBlock (CallKind : String) (srcText file : String) (line col : Nat)
    (d : FunctionDeclInfo) : String :=
  "Call site: " ++ srcText ++ " @ " ++ file ++ ":" ++ toString line ++ "\n"
    ++ "Callee: " ++ calleeDescription d ++ "\n" ++ "\n"

/-- `SCCallBack::dumpCallInfo` (lines 132-187). Inputs: the `--annotate`
flag, the `--call-at-line` value (0 when unset), the original content of the
call's file, the computed call kind, the call data, and the current
replacement set. Behaviour: return early (no output, no edit) when the line
filter rejects the call; otherwise print the report, aborting on a callee
that is not a function declaration, and, in annotation mode only, insert the
annotation replacement. The report is `some` text exactly when one was
printed. -/
def dumpCallInfo (annotate : Bool) (callAtLine : Nat) (orig : List Char)
    (CallKind : String) (ci : CallInfo) (st : List Replacement) :
    Except String (List Replacement × Option String) :=
  if ci.line != callAtLine && callAtLine != 0 then .ok (st, none)
  else
    match castFunctionDecl ci.calleeDecl with
    | .error e => .error e
    | .ok CalleeDecl =>
      let s := calleeDescription CalleeDecl
      let out := reportBlock CallKind ci.srcText ci.file ci.line ci.col
        CalleeDecl
      let st' := if annotate then replInsert st (mkReplacement orig ci s)
        else st
      .ok (st', some out)

/-- A matched call-expression node as delivered to the callback: its dynamic
class together with the data `dumpCallInfo` reads from it. -/
structure CallNode where
  cls : CallExprClass
  info : CallInfo
deriving DecidableEq

/-- `SCCallBack::run` (lines 107-127): look up the node bound as `"call"`
in the match result; on success classify it and run `dumpCallInfo`; when no
call-expression node is bound under that id, the code hits
`assert(false && "Unhandled match !")`, modelled as that named error. -/
def scRun (annotate : Bool) (callAtLine : Nat) (orig : List Char)
    (bindings : List (String × CallNode)) (st : List Replacement) :
    Except String (List Replacement × Option String) :=
  match List.lookup "call" bindings with
  | some node =>
    dumpCallInfo annotate callAtLine orig (classifyCall node.cls) node.info st
  | none => .error "Unhandled match !"

/-- One registered AST matcher, modelled by the id it binds its root
call-expression node under. -/
structure SCMatcher where
  bindId : String
deriving DecidableEq

/-- The matchers registered by `main`, lines 217-222: with a non-empty
`--callee-name` the matcher `callExpr(callee(functionDecl(hasName(...))))`
bound as `"call"`, otherwise the matcher `callExpr()` bound as `"call"`. -/
def finderMatchers (calleeName : String) : List SCMatcher :=
  if calleeName != "" then [⟨"call"⟩] else [⟨"call"⟩]

/-- The traversal loop: the frontend delivers one match per call-expression
node; each match binds the node under the matcher's bind id and invokes
`SCCallBack::run`, threading the replacement set and concatenating the
report output. -/
def scRunEvents (annotate : Bool) (callAtLine : Nat) (orig : List Char) :
    List CallNode → List Replacement → String →
    Except String (List Replacement × String)
  | [], st, out => .ok (st, out)
  | n :: ns, st, out =>
    match scRun annotate callAtLine orig [("call", n)] st with
    | .error e => .error e
    | .ok (st', o) =>
      scRunEvents annotate callAtLine orig ns st' (out ++ o.getD "")

/-- Outcome of a whole run: the final content of the processed file, the
accumulated replacement set, the diagnostic output, and whether the tool
saved files back to disk. -/
structure RunOutcome where
  finalContent : List Char
  edits : List Replacement
  output : String
  savedBack : Bool
deriving DecidableEq

/-- `main`, line 228:
`return Annotate ? Tool.runAndSave(...) : Tool.run(...)`. `runAndSave`
applies the accumulated replacements and writes the files back;
`run` only traverses, leaving every file untouched. -/
def scMain (annotate : Bool) (callAtLine : Nat) (orig : List Char)
    (nodes : List CallNode) : Except String RunOutcome :=
  match scRunEvents annotate callAtLine orig nodes [] "" with
  | .error e => .error e
  | .ok (st, out) =>
    .ok ⟨if annotate then applyAllReplacements orig st else orig,
      st, out, annotate⟩

/-- Decidable check that `p` occurs at the head of `s`. -/
def listPre : List Char → List Char → Bool
  | [], _ => true
  | _ :: _, [] => false
  | a :: as, b :: bs => a == b && listPre as bs

/-- Decidable check that `p` occurs contiguously somewhere in `s`. -/
def listSub (p : List Char) : List Char → Bool
  | [] => p.isEmpty
  | b :: bs => listPre p (b :: bs) || listSub p bs

/-! Helper lemmas shared by the claim theorems. -/

theorem strLtB_irrefl : ∀ as : List Char, strLtB as as = false := by
  intro as
  induction as with
  | nil => rfl
  | cons a as ih => simp [strLtB, ih]

theorem strLtB_conn :
    ∀ as bs : List Char, as ≠ bs → strLtB as bs = true ∨ strLtB bs as = true := by
  intro as
  induction as with
  | nil =>
    intro bs h
    cases bs with
    | nil => exact absurd rfl h
    | cons b bs => left; rfl
  | cons a as ih =>
    intro bs h
    cases bs with
    | nil => right; rfl
    | cons b bs =>
      by_cases hab : a.toNat < b.toNat
      · left; simp [strLtB, hab]
      · by_cases hba : b.toNat < a.toNat
        · right; simp [strLtB, hba]
        · have hv : a = b :=
            Char.ext (UInt32.ext
              (Nat.le_antisymm (Nat.le_of_not_lt hba) (Nat.le_of_not_lt hab)))
          subst hv
          have htl : as ≠ bs := fun hh => h (by rw [hh])
          rcases ih bs htl with h1 | h1
          · left; simp [strLtB, h1]
          · right; simp [strLtB, h1]

theorem replLess_irrefl : ∀ r : Replacement, replLess r r = false := by
  intro r
  simp [replLess, strLtB_irrefl]

theorem take_getD_eq (l : List Char) (off : Nat) (d : Char)
    (h : off < l.length) : l.take off ++ [l.getD off d] = l.take (off + 1) := by
  rw [List.take_succ, List.getElem?_eq_getElem h]
  simp [List.getD_eq_getElem?_getD, List.getElem?_eq_getElem h]

theorem dump_ne_unhandled (a : Bool) (cal : Nat) (orig : List Char)
    (k : String) (ci : CallInfo) (st : List Replacement) :
    dumpCallInfo a cal orig k ci st ≠ .error "Unhandled match !" := by
  unfold dumpCallInfo
  split
  · simp
  · cases hd : ci.calleeDecl <;> simp [castFunctionDecl]

theorem dump_state_no_annot (cal : Nat) (orig : List Char) (k : String)
    (ci : CallInfo) (st : List Replacement) (r : List Replacement × Option String)
    (h : dumpCallInfo false cal orig k ci st = .ok r) : r.1 = st := by
  unfold dumpCallInfo at h
  split at h
  · cases h; rfl
  · cases hd : castFunctionDecl ci.calleeDecl <;> rw [hd] at h
    · cases h
    · cases h; rfl

theorem events_state_no_annot (cal : Nat) (orig : List Char) :
    ∀ (ns : List CallNode) (st : List Replacement) (out : String)
      (r : List Replacement × String),
      scRunEvents false cal orig ns st out = .ok r → r.1 = st := by
  intro ns
  induction ns with
  | nil =>
    intro st out r h
    cases h; rfl
  | cons n ns ih =>
    intro st out r h
    unfold scRunEvents at h
    cases hs : scRun false cal orig [("call", n)] st <;> rw [hs] at h
    · cases h
    · rename_i p
      have h1 : p.1 = st := by
        unfold scRun at hs
        rw [show List.lookup "call" [("call", n)] = some n from rfl] at hs
        exact dump_state_no_annot cal orig (classifyCall n.cls) n.info st p hs
      exact ih st (out ++ (Prod.snd p).getD "") r (by rw [← h1]; exact h)

/-! Claim theorems. -/

/-- C1 (amended): each queued annotation edit is a token-range replacement of
the call's end token by the token's first character followed by
` /* <desc> */`. When the end token is a single character — the case of every
call whose last token is `)` — this coincides with a pure insertion
immediately after the end token, deleting no original characters, and the
round-trip property holds for that edit. -/
theorem annot_pure_insertion (orig : List Char) (off : Nat) (desc : String)
    (h : off + 1 ≤ orig.length) :
    applyReplacement orig off 1 (annotTextFor orig off desc)
      = orig.take (off + 1) ++ (" /* " ++ desc ++ " */").data
        ++ orig.drop (off + 1) := by
  unfold applyReplacement annotTextFor
  rw [← take_getD_eq orig off ' ' h]
  simp [String.data_append, String.singleton]

/-- C1 witness: the single-character end-token case at a concrete input. -/
theorem annot_pure_insertion_witness :
    2 + 1 ≤ "f();".data.length
    ∧ applyReplacement "f();".data 2 1
        (annotTextFor "f();".data 2 "f void () @ t.cpp:1")
      = "f();".data.take (2 + 1)
        ++ (" /* " ++ "f void () @ t.cpp:1" ++ " */").data
        ++ "f();".data.drop (2 + 1) :=
  ⟨by decide, annot_pure_insertion "f();".data 2 "f void () @ t.cpp:1" (by decide)⟩

/-- C1 counterexample: for the operator call `a == bb`, whose end token `bb`
has two characters, the queued edit is not a pure insertion after the end
token: the applied content keeps only the first character of the token, so a
character of the original file is deleted and the round-trip fails. -/
theorem annot_roundtrip_cex :
    applyReplacement "a == bb;".data 5 2
        (annotTextFor "a == bb;".data 5 "Z::operator== bool (B, B) @ t.cpp:2")
      = "a == b /* Z::operator== bool (B, B) @ t.cpp:2 */;".data
    ∧ "a == b /* Z::operator== bool (B, B) @ t.cpp:2 */;".data
      ≠ "a == bb;".data.take 7
        ++ (" /* " ++ "Z::operator== bool (B, B) @ t.cpp:2" ++ " */").data
        ++ "a == bb;".data.drop 7 := by decide

/-- C2 (amended): `Replace.insert` has `std::set` semantics: inserting a
replacement identical to an already queued one silently leaves the set
unchanged, and inserting a different replacement at the same offset keeps
both; the operation is total, raising no error and never aborting. -/
theorem repl_insert_silently_merges (f t t' : String) (off len : Nat)
    (h : t ≠ t') :
    replInsert (replInsert [] ⟨f, off, len, t⟩) ⟨f, off, len, t⟩
        = [⟨f, off, len, t⟩]
    ∧ (replInsert (replInsert [] ⟨f, off, len, t⟩) ⟨f, off, len, t'⟩).length
        = 2 := by
  constructor
  · simp [replInsert, replLess_irrefl]
  · have hdata : t.data ≠ t'.data := fun hd => h (String.ext hd)
    have hlt : replLess ⟨f, off, len, t⟩ ⟨f, off, len, t'⟩
        = strLtB t.data t'.data := by simp [replLess]
    have hgt : replLess ⟨f, off, len, t'⟩ ⟨f, off, len, t⟩
        = strLtB t'.data t.data := by simp [replLess]
    show (replInsert [⟨f, off, len, t⟩] ⟨f, off, len, t'⟩).length = 2
    unfold replInsert
    rcases strLtB_conn t.data t'.data hdata with h1 | h1
    · rw [hgt]
      by_cases h2 : strLtB t'.data t.data = true
      · simp [h2]
      · simp [h2, hlt, h1, replInsert]
    · rw [hgt, h1]
      simp

/-- C2 witness: the amended behaviour at a concrete pair of texts. -/
theorem repl_insert_silently_merges_witness :
    ("x" : String) ≠ "y"
    ∧ (replInsert (replInsert [] ⟨"t.cpp", 5, 1, "x"⟩) ⟨"t.cpp", 5, 1, "x"⟩
        = [⟨"t.cpp", 5, 1, "x"⟩]
      ∧ (replInsert (replInsert [] ⟨"t.cpp", 5, 1, "x"⟩)
          ⟨"t.cpp", 5, 1, "y"⟩).length = 2) :=
  ⟨by decide, repl_insert_silently_merges "t.cpp" "x" "y" 5 1 (by decide)⟩

/-- C2 counterexample: queueing the same annotation replacement twice leaves
the set with a single element — the second edit is silently dropped, not
rejected with a named error — and a different text at the same offset is
silently kept alongside the first. -/
theorem repl_collision_cex :
    replInsert (replInsert [] ⟨"t.cpp", 10, 1, ") /* f void () @ t.cpp:1 */"⟩)
        ⟨"t.cpp", 10, 1, ") /* f void () @ t.cpp:1 */"⟩
      = [⟨"t.cpp", 10, 1, ") /* f void () @ t.cpp:1 */"⟩]
    ∧ replInsert (replInsert [] ⟨"t.cpp", 10, 1, "a"⟩) ⟨"t.cpp", 10, 1, "b"⟩
      = [⟨"t.cpp", 10, 1, "a"⟩, ⟨"t.cpp", 10, 1, "b"⟩] := by decide

/-- C3 (amended): the queued annotation text begins with a copy of the first
character of the call's end token, and its comment body is the full callee
description: `<qualifiedName> <signature> @ <declFile>:<declLine>` for a
non-defaulted callee — the declaration site is included — and
`(defaulted) <signature>` for a defaulted callee. -/
theorem annot_text_actual (orig : List Char) (off : Nat) (q t f : String)
    (l : Nat) :
    annotTextFor orig off (calleeDescription ⟨q, t, false, f, l⟩)
      = String.singleton (orig.getD off ' ') ++ " /* "
        ++ (q ++ " " ++ t ++ " @ " ++ f ++ ":" ++ toString l) ++ " */"
    ∧ annotTextFor orig off (calleeDescription ⟨q, t, true, f, l⟩)
      = String.singleton (orig.getD off ' ') ++ " /* "
        ++ ("(defaulted) " ++ t) ++ " */" :=
  ⟨rfl, rfl⟩

/-- C3 counterexample: at a concrete non-defaulted call the queued text is
`) /* f void () @ t.cpp:1 */`, not the claimed ` /* f void () */`: it starts
with the copied `)` and carries the ` @ file:line` declaration site. -/
theorem annot_text_cex :
    annotTextFor "f();".data 2
        (calleeDescription ⟨"f", "void ()", false, "t.cpp", 1⟩)
      = ") /* f void () @ t.cpp:1 */"
    ∧ ") /* f void () @ t.cpp:1 */" ≠ " /* f void () */" := by decide

/-- C4: `dumpCallInfo` reports a call exactly when the `--call-at-line`
filter accepts it: with a non-zero filter value the report is produced iff
the call site's resolved line number equals the value, and with the value 0
(the unset sentinel) every call is reported. -/
theorem line_filter_correct (a : Bool) (cal : Nat) (orig : List Char)
    (k src f : String) (line col off len : Nat) (fi : FunctionDeclInfo)
    (st : List Replacement) :
    ∃ st' o,
      dumpCallInfo a cal orig k ⟨src, f, line, col, off, len, .functionDecl fi⟩ st
        = .ok (st', o)
      ∧ (o.isSome = true ↔ (cal = 0 ∨ line = cal)) := by
  unfold dumpCallInfo
  by_cases hcond : ((line != cal) && (cal != 0)) = true
  · rw [if_pos hcond]
    refine ⟨st, none, rfl, ?_⟩
    simp only [Bool.and_eq_true, bne_iff_ne, ne_eq] at hcond
    simp [hcond.1, hcond.2]
  · rw [if_neg hcond]
    simp only [Bool.and_eq_true, bne_iff_ne, ne_eq, not_and, not_not] at hcond
    refine ⟨_, _, rfl, ?_⟩
    simp
    by_cases hl : line = cal
    · right; exact hl
    · left; exact hcond hl

/-- C5: the call classification of `SCCallBack::run` covers every call:
a member-syntax call (a `CXXMemberCallExpr`) classifies as `Member`, an
operator-overload invocation (a `CXXOperatorCallExpr`) classifies as
`Operator`, and every other call classifies as the default `Function`. -/
theorem classification_coverage (c : CallExprClass) :
    (classifyCall c = "Member" ↔ isaCXXMemberCallExpr c = true)
    ∧ (classifyCall c = "Operator" ↔ isaCXXOperatorCallExpr c = true)
    ∧ (classifyCall c = "Function"
        ↔ (isaCXXMemberCallExpr c = false ∧ isaCXXOperatorCallExpr c = false)) := by
  cases c <;> decide

/-- C6 (amended): for a defaulted (compiler-synthesized) callee the emitted
description is `(defaulted) <signature>`: it carries the tag and the
signature produced from the synthesized declaration's type, it never
includes a declaration-site location (it is independent of the declaration
file and line), and — unlike the claim — it does not include the callee's
qualified name (it is independent of the qualified name as well). -/
theorem defaulted_desc_actual (q q' t f f' : String) (l l' : Nat) :
    calleeDescription ⟨q, t, true, f, l⟩ = "(defaulted) " ++ t
    ∧ calleeDescription ⟨q, t, true, f, l⟩
        = calleeDescription ⟨q', t, true, f', l'⟩ :=
  ⟨rfl, rfl⟩

/-- C6 counterexample: for a concrete defaulted constructor the emitted
description is `(defaulted) void ()`, which does not contain the callee's
qualified name `Z::C::C` anywhere. -/
theorem defaulted_desc_cex :
    calleeDescription ⟨"Z::C::C", "void ()", true, "t.cpp", 3⟩
      = "(defaulted) void ()"
    ∧ listSub "Z::C::C".data "(defaulted) void ()".data = false := by decide

/-- C7 (amended): the report block for a matching call is
`Call site: <srcText> @ <siteFile>:<siteLine>` followed by
`Callee: <description>` and a blank line; the classified kind and the
resolved column number are computed but do not appear anywhere in the
output (the block is independent of both), and there is no
`<Kind> call (File:... Line:... Col:...)` line and no
`with prototype`/`declared at` wording. -/
theorem report_format_actual (k k' src f : String) (line col col' : Nat)
    (d : FunctionDeclInfo) :
    reportBlock k src f line col d = reportBlock k' src f line col' d
    ∧ reportBlock k src f line col d
      = "Call site: " ++ src ++ " @ " ++ f ++ ":" ++ toString line ++ "\n"
        ++ "Callee: " ++ calleeDescription d ++ "\n" ++ "\n" :=
  ⟨rfl, rfl⟩

/-- C7 counterexample: the concrete report block for a member call contains
neither the claimed `with prototype` callee wording nor a `Col:` field nor a
`Member call` kind line nor a `declared at` suffix. -/
theorem report_format_cex :
    reportBlock "Member" "c.f(1)" "t.cpp" 3 5
        ⟨"Z::C::f", "void (int)", false, "t.cpp", 1⟩
      = "Call site: c.f(1) @ t.cpp:3\nCallee: Z::C::f void (int) @ t.cpp:1\n\n"
    ∧ listSub "with prototype".data
        "Call site: c.f(1) @ t.cpp:3\nCallee: Z::C::f void (int) @ t.cpp:1\n\n".data
      = false
    ∧ listSub "Col:".data
        "Call site: c.f(1) @ t.cpp:3\nCallee: Z::C::f void (int) @ t.cpp:1\n\n".data
      = false
    ∧ listSub "Member call".data
        "Call site: c.f(1) @ t.cpp:3\nCallee: Z::C::f void (int) @ t.cpp:1\n\n".data
      = false
    ∧ listSub "declared at".data
        "Call site: c.f(1) @ t.cpp:3\nCallee: Z::C::f void (int) @ t.cpp:1\n\n".data
      = false := by decide

/-- C8 (amended): when the resolved callee declaration is a function
declaration, `dumpCallInfo` never aborts — the cast's failure branch is
unreachable; when it is not a function declaration and the line filter does
not discard the call first, the run aborts through the `llvm::cast`
assertion, whose diagnostic is the fixed string
`cast<Ty>() argument of incompatible type!` — a message that does not
identify the unexpected declaration kind. -/
theorem callee_cast_behavior (a : Bool) (cal : Nat) (orig : List Char)
    (k : String) (ci : CallInfo) (st : List Replacement) :
    (isaFunctionDecl ci.calleeDecl = true →
      ∃ r, dumpCallInfo a cal orig k ci st = .ok r)
    ∧ (isaFunctionDecl ci.calleeDecl = false →
        ((ci.line != cal) && (cal != 0)) = false →
        dumpCallInfo a cal orig k ci st
          = .error "cast<Ty>() argument of incompatible type!") := by
  constructor
  · intro hf
    unfold dumpCallInfo
    split
    · exact ⟨(st, none), rfl⟩
    · cases hd : ci.calleeDecl with
      | functionDecl i => simp [castFunctionDecl]
      | varDecl n => rw [hd] at hf; cases hf
      | recordDecl n => rw [hd] at hf; cases hf
  · intro hf hline
    unfold dumpCallInfo
    rw [if_neg (by rw [hline]; exact Bool.false_ne_true)]
    cases hd : ci.calleeDecl with
    | functionDecl i => rw [hd] at hf; cases hf
    | varDecl n => simp [castFunctionDecl]
    | recordDecl n => simp [castFunctionDecl]

/-- C8 witness: both branches of the amended statement at concrete callee
declarations. -/
theorem callee_cast_behavior_witness :
    (∃ r, dumpCallInfo false 0 [] "Function"
        ⟨"f()", "t.cpp", 1, 1, 2, 1, .functionDecl ⟨"f", "void ()", false, "t.cpp", 1⟩⟩ []
      = .ok r)
    ∧ dumpCallInfo false 0 [] "Function"
        ⟨"v()", "t.cpp", 1, 1, 2, 1, .varDecl "v"⟩ []
      = .error "cast<Ty>() argument of incompatible type!" :=
  ⟨(callee_cast_behavior false 0 [] "Function"
      ⟨"f()", "t.cpp", 1, 1, 2, 1, .functionDecl ⟨"f", "void ()", false, "t.cpp", 1⟩⟩ []).1 rfl,
   (callee_cast_behavior false 0 [] "Function"
      ⟨"v()", "t.cpp", 1, 1, 2, 1, .varDecl "v"⟩ []).2 rfl rfl⟩

/-- C8 counterexample: the abort diagnostic is the same fixed string for
every non-function declaration kind — it does not identify the unexpected
kind (for instance, the message for a variable declaration does not mention
`Var` and equals the message for a record declaration). -/
theorem cast_diag_cex :
    castFunctionDecl (.varDecl "v")
      = .error "cast<Ty>() argument of incompatible type!"
    ∧ castFunctionDecl (.varDecl "v") = castFunctionDecl (.recordDecl "R")
    ∧ listSub "Var".data "cast<Ty>() argument of incompatible type!".data
      = false :=
  ⟨rfl, rfl, by decide⟩

/-- C9: write-back happens only in annotation mode: with `--annotate` off,
every successful run queues no edit, saves nothing back, and leaves the file
content unchanged; with `--annotate` on, the tool saves files back and the
final content is the original with the accumulated replacement set
applied. -/
theorem write_back_iff_annot (cal : Nat) (orig : List Char)
    (nodes : List CallNode) :
    (∀ r : RunOutcome, scMain false cal orig nodes = .ok r →
      r.finalContent = orig ∧ r.edits = [] ∧ r.savedBack = false)
    ∧ (∀ r : RunOutcome, scMain true cal orig nodes = .ok r →
      r.savedBack = true
        ∧ r.finalContent = applyAllReplacements orig r.edits) := by
  constructor
  · intro r h
    unfold scMain at h
    cases hs : scRunEvents false cal orig nodes [] "" <;> rw [hs] at h
    · cases h
    · rename_i p
      have hst : p.1 = [] := events_state_no_annot cal orig nodes [] "" p hs
      cases h
      exact ⟨by simp, by simp [hst], rfl⟩
  · intro r h
    unfold scMain at h
    cases hs : scRunEvents true cal orig nodes [] "" <;> rw [hs] at h
    · cases h
    · cases h
      exact ⟨rfl, by simp⟩

/-- C9 witness: both modes of the theorem at a concrete (empty) run. -/
theorem write_back_iff_annot_witness :
    ((RunOutcome.mk "f();".data [] "" false).finalContent = "f();".data
      ∧ (RunOutcome.mk "f();".data [] "" false).edits = []
      ∧ (RunOutcome.mk "f();".data [] "" false).savedBack = false)
    ∧ ((RunOutcome.mk "f();".data [] "" true).savedBack = true
      ∧ (RunOutcome.mk "f();".data [] "" true).finalContent
          = applyAllReplacements "f();".data
              (RunOutcome.mk "f();".data [] "" true).edits) :=
  ⟨(write_back_iff_annot 0 "f();".data []).1 ⟨"f();".data, [], "", false⟩ rfl,
   (write_back_iff_annot 0 "f();".data []).2 ⟨"f();".data, [], "", true⟩ rfl⟩

/-- C10: every matcher `main` registers — with or without a `--callee-name`
filter — binds its call-expression node under the id `call`, so the node
lookup in the callback always succeeds and the `Unhandled match !` assertion
failure is unreachable on every match the finder delivers. -/
theorem match_binding_safe (name : String) (m : SCMatcher)
    (hm : m ∈ finderMatchers name) (a : Bool) (cal : Nat) (orig : List Char)
    (n : CallNode) (st : List Replacement) :
    m.bindId = "call"
    ∧ scRun a cal orig [(m.bindId, n)] st ≠ .error "Unhandled match !" := by
  have hid : m.bindId = "call" := by
    simp only [finderMatchers, ite_self, List.mem_singleton] at hm
    rw [hm]
  refine ⟨hid, ?_⟩
  rw [hid]
  unfold scRun
  rw [show List.lookup "call" [("call", n)] = some n from rfl]
  exact dump_ne_unhandled a cal orig (classifyCall n.cls) n.info st

/-- C10 witness: the registered matcher of a run without a callee-name
filter, applied to a concrete match. -/
theorem match_binding_safe_witness :
    (SCMatcher.mk "call") ∈ finderMatchers ""
    ∧ ((SCMatcher.mk "call").bindId = "call"
      ∧ scRun false 0 [] [((SCMatcher.mk "call").bindId,
          ⟨.plainCall, ⟨"f()", "t.cpp", 1, 1, 2, 1,
            .functionDecl ⟨"f", "void ()", false, "t.cpp", 1⟩⟩⟩)] []
        ≠ .error "Unhandled match !") :=
  ⟨by decide,
   match_binding_safe "" ⟨"call"⟩ (by decide) false 0 []
     ⟨.plainCall, ⟨"f()", "t.cpp", 1, 1, 2, 1,
       .functionDecl ⟨"f", "void ()", false, "t.cpp", 1⟩⟩⟩ []⟩

end ShowCall
